import Mathlib

/-!
Amara `cxmlstring`: the `isxml` sniffer.

A shallow embedding of `src/clib/xmlstring.c` and the properties of its one
exported function, `string_isxml` (Python name `isxml`).

The C function is embedded as a computation over an explicit world (the
file's static storage plus the number of buffer views currently held) that
also records the buffer operations it performs, in order.
-/

namespace Amara.XmlString

/-! ## Data model -/

/-- One octet of a buffer. -/
abbrev Byte := Fin 256

/-- Modelled from the spec: `PyObject` is declared by the host runtime, not by
the source file. These are the Python values that can be handed to `isxml` or
handed back by it: byte sequences (`bytes`, `bytearray`), decoded character
strings (`str`), and a few values that are neither. -/
inductive PyObject where
  | bytes (data : List Byte)
  | bytearray (data : List Byte)
  | str (text : String)
  | int (n : Int)
  | bool (b : Bool)
  | none
  deriving DecidableEq, Repr

/-- Modelled from the spec: the object handed back by the runtime macro
`Py_RETURN_TRUE`, the boolean `true`. -/
def Py_True : PyObject := PyObject.bool true

/-- Modelled from the spec: the object handed back by the runtime macro
`Py_RETURN_FALSE`, the boolean `false`. -/
def Py_False : PyObject := PyObject.bool false

/-- Contents exposed through the buffer protocol: only bytes-like objects have any. -/
def PyObject.buffer : PyObject → Option (List Byte)
  | PyObject.bytes data => some data
  | PyObject.bytearray data => some data
  | _ => Option.none

/-- Modelled from the spec: `Py_buffer` is declared by the host runtime. Only
the two fields that `string_isxml` uses are kept: `buf`, the bytes the view
points at, and `len`, a signed `Py_ssize_t`. -/
structure Py_buffer where
  buf : List Byte
  len : Int
  deriving DecidableEq, Repr

/-- What the C implementation leaves open: whether plain `char` is signed. -/
structure Platform where
  char_signed : Bool
  deriving DecidableEq, Repr

/-- Ways a call can fail to produce a Python object: the exception raised when
argument parsing rejects the call (the function returns `NULL`), and a read
outside the buffer, which C leaves undefined. -/
inductive Fault where
  | TypeMismatch
  | OutOfBounds
  deriving DecidableEq, Repr

/-- Buffer operations, recorded in program order. -/
inductive Event where
  | acquire
  | read (index : Nat)
  | release
  deriving DecidableEq, Repr

/-- State that outlives a call: the two writable static arrays of the file and
the number of buffer views handed out and not yet released. The module itself
is declared with `m_size = -1`, so it has no state block of its own. -/
structure World where
  module_doc : String
  isxml_doc : String
  exports : Nat
  deriving DecidableEq, Repr

/-- Outcome of running a piece of the C code from some world. -/
structure Run (α : Type) where
  result : Except Fault α
  world : World
  trace : List Event

/-- A piece of C code: from a world to an outcome. -/
def Exec (α : Type) : Type := World → Run α

/-- Finish with a value, touching nothing. -/
def Exec.ret {α : Type} (a : α) : Exec α :=
  fun w => ⟨Except.ok a, w, []⟩

/-- Sequencing: a fault in the first part ends the computation there. -/
def Exec.seq {α β : Type} (m : Exec α) (f : α → Exec β) : Exec β :=
  fun w =>
    let r := m w
    match r.result with
    | Except.error e => ⟨Except.error e, r.world, r.trace⟩
    | Except.ok a =>
      let r2 := f a r.world
      ⟨r2.result, r2.world, r.trace ++ r2.trace⟩

/-! ## Primitives used by `string_isxml` -/

/-- Modelled from the spec: `PyArg_ParseTuple` is the host runtime's argument
parser and is not part of the source file. This is the call
`PyArg_ParseTuple(args, "y*:isxml", &view)`: exactly one positional argument,
which must be a bytes-like object; a character string (or any other object) is
rejected with the type-mismatch error and nothing is acquired. On success the
view covers the whole object, `len` is its length in bytes, and the object has
one more outstanding view. -/
def PyArg_ParseTuple (args : List PyObject) : Exec Py_buffer :=
  fun w =>
    match args with
    | [o] =>
      match o.buffer with
      | some data =>
        ⟨Except.ok ⟨data, (data.length : Int)⟩, { w with exports := w.exports + 1 }, [Event.acquire]⟩
      | Option.none => ⟨Except.error Fault.TypeMismatch, w, []⟩
    | _ => ⟨Except.error Fault.TypeMismatch, w, []⟩

/-- Modelled from the spec: `PyBuffer_Release` is the host runtime's release of
a view obtained from argument parsing and is not part of the source file. The
input is only borrowed for reading; releasing the view ends the borrow, so the
object has one outstanding view fewer. -/
def PyBuffer_Release (_view : Py_buffer) : Exec Unit :=
  fun w => ⟨Except.ok (), { w with exports := w.exports - 1 }, [Event.release]⟩

/-- The value of a byte read through a `char` lvalue, promoted to `int`. -/
def char_value (cfg : Platform) (b : Byte) : Int :=
  if cfg.char_signed && decide (128 ≤ b.val) then (b.val : Int) - 256 else (b.val : Int)

/-- The value of a C character constant, an `int`. -/
def char_const (c : Char) : Int := (c.toNat : Int)

/-- The expression `((char*)view.buf)[i]`: total, with the out-of-range read made explicit. -/
def char_at (cfg : Platform) (view : Py_buffer) (i : Nat) : Exec Int :=
  fun w =>
    match view.buf[i]? with
    | some b => ⟨Except.ok (char_value cfg b), w, [Event.read i]⟩
    | Option.none => ⟨Except.error Fault.OutOfBounds, w, [Event.read i]⟩

/-- C's `&&`: the right operand is evaluated only when the left one is true. -/
def c_and (lhs : Bool) (rhs : Exec Bool) : Exec Bool :=
  if lhs then rhs else Exec.ret false

/-! ## The function -/

/-- The C function `string_isxml(self, args)`. -/
def string_isxml (cfg : Platform) (_self : PyObject) (args : List PyObject) : Exec PyObject :=
  Exec.seq (PyArg_ParseTuple args) fun view =>
  Exec.seq (c_and (decide (view.len > 0))
      (Exec.seq (char_at cfg view 0) fun c => Exec.ret (c == char_const '<'))) fun starts =>
  if starts then
    Exec.seq (PyBuffer_Release view) fun _ => Exec.ret Py_True
  else
    Exec.seq (PyBuffer_Release view) fun _ => Exec.ret Py_False

/-- The Python-level call `isxml(arg)`: one positional argument, `self` the module. -/
def isxml (cfg : Platform) (arg : PyObject) : Exec PyObject :=
  string_isxml cfg PyObject.none [arg]

/-- The bytes of an ASCII literal such as `b"<root/>"`. -/
def ascii (s : String) : List Byte :=
  s.toList.map fun c => Fin.ofNat c.toNat

/-! ## Vocabulary of the statements -/

/-- The byte `0x3C`, ASCII `<`. -/
def LT : Byte := 0x3C

/-- The buffer operations of a successful call, by the length of the data. -/
def expected_trace (data : List Byte) : List Event :=
  if data = [] then [Event.acquire, Event.release]
  else [Event.acquire, Event.read 0, Event.release]

/-- Call `string_isxml` on the same arguments `n` times in a row, each call
starting from the world the previous one left: the results in order, and the
final world. -/
def call_repeatedly (cfg : Platform) (self : PyObject) (args : List PyObject) :
    Nat → World → List (Except Fault PyObject) × World
  | 0, w => ([], w)
  | n + 1, w =>
    let r := string_isxml cfg self args w
    let rest := call_repeatedly cfg self args n r.world
    (r.result :: rest.1, rest.2)

/-- Initial contents of the static array `module_doc`. -/
def module_doc : String :=
  "Miscellaneous XML-specific string functions\n\nCopyright 2016 Uche Ogbuji (USA).\n"

/-- Initial contents of the static array `isxml_doc`. -/
def isxml_doc : String :=
  "isxml(S) -> bool\nS must be a bytes object, not unicode/string\nReturn True if the given bytes represent a (possibly) well-formed XML\ndocument. (see http://www.w3.org/TR/REC-xml/#sec-guessing)."

/-- The world right after the module is loaded: statics as initialised, no view held. -/
def world0 : World := ⟨module_doc, isxml_doc, 0⟩

/-! ## Helper lemmas -/

theorem char_const_lt : char_const '<' = 60 := by
  decide

theorem char_value_eq_sixty (cfg : Platform) (b : Byte) :
    char_value cfg b = 60 ↔ b = LT := by
  obtain ⟨v, hv⟩ := b
  unfold char_value LT
  rw [Fin.ext_iff]
  cases cfg.char_signed <;> by_cases h : 128 ≤ v <;> simp [h] <;> omega

theorem char_test (cfg : Platform) (b : Byte) :
    (char_value cfg b == char_const '<') = decide (b = LT) := by
  rw [char_const_lt]
  by_cases h : b = LT
  · simp [h, (char_value_eq_sixty cfg LT).mpr rfl]
  · have h2 : ¬ char_value cfg b = 60 := fun hc => h ((char_value_eq_sixty cfg b).mp hc)
    simp [h, h2]

theorem string_isxml_of_buffer (cfg : Platform) (self o : PyObject) (data : List Byte)
    (w : World) (h : o.buffer = some data) :
    string_isxml cfg self [o] w
      = ⟨Except.ok (PyObject.bool (decide (data.head? = some LT))), w, expected_trace data⟩ := by
  cases data with
  | nil =>
    simp [string_isxml, Exec.seq, PyArg_ParseTuple, h, c_and, PyBuffer_Release, Exec.ret,
      Py_False, expected_trace]
  | cons b t =>
    have hpos : (0 : Int) < (t.length : Int) + 1 := by omega
    by_cases hb : b = LT
    · simp [string_isxml, Exec.seq, PyArg_ParseTuple, h, c_and, char_at, PyBuffer_Release,
        Exec.ret, Py_True, expected_trace, char_test, hb, hpos]
    · simp [string_isxml, Exec.seq, PyArg_ParseTuple, h, c_and, char_at, PyBuffer_Release,
        Exec.ret, Py_False, expected_trace, char_test, hb, hpos]

theorem string_isxml_of_no_buffer (cfg : Platform) (self o : PyObject) (w : World)
    (h : o.buffer = Option.none) :
    string_isxml cfg self [o] w = ⟨Except.error Fault.TypeMismatch, w, []⟩ := by
  simp [string_isxml, Exec.seq, PyArg_ParseTuple, h]

theorem string_isxml_of_arity (cfg : Platform) (self : PyObject) (args : List PyObject)
    (w : World) (h : args.length ≠ 1) :
    string_isxml cfg self args w = ⟨Except.error Fault.TypeMismatch, w, []⟩ := by
  match args, h with
  | [], _ => simp [string_isxml, Exec.seq, PyArg_ParseTuple]
  | [_], h => simp at h
  | _ :: _ :: _, _ => simp [string_isxml, Exec.seq, PyArg_ParseTuple]

/-- Every call is one of two shapes: a single bytes-like argument, answered from
its first byte, or a rejected call that touched nothing. -/
theorem string_isxml_cases (cfg : Platform) (self : PyObject) (args : List PyObject)
    (w : World) :
    (∃ o data, args = [o] ∧ o.buffer = some data ∧
        string_isxml cfg self args w
          = ⟨Except.ok (PyObject.bool (decide (data.head? = some LT))), w, expected_trace data⟩)
    ∨ ((∀ o, args = [o] → o.buffer = Option.none) ∧
        string_isxml cfg self args w = ⟨Except.error Fault.TypeMismatch, w, []⟩) := by
  by_cases hlen : args.length = 1
  · obtain ⟨o, rfl⟩ := List.length_eq_one.mp hlen
    cases hbuf : o.buffer with
    | none =>
      right
      refine ⟨?_, string_isxml_of_no_buffer cfg self o w hbuf⟩
      intro o2 h2
      cases h2
      exact hbuf
    | some data =>
      left
      exact ⟨o, data, rfl, hbuf, string_isxml_of_buffer cfg self o data w hbuf⟩
  · right
    refine ⟨?_, string_isxml_of_arity cfg self args w hlen⟩
    intro o h
    subst h
    exact absurd rfl hlen

theorem string_isxml_world (cfg : Platform) (self : PyObject) (args : List PyObject)
    (w : World) : (string_isxml cfg self args w).world = w := by
  rcases string_isxml_cases cfg self args w with ⟨_, _, _, _, h⟩ | ⟨_, h⟩ <;> rw [h]

theorem string_isxml_result_indep (cfg : Platform) (self : PyObject) (args : List PyObject)
    (w1 w2 : World) :
    (string_isxml cfg self args w1).result = (string_isxml cfg self args w2).result := by
  rcases string_isxml_cases cfg self args w1 with ⟨o, data, rfl, hb, h⟩ | ⟨hno, h⟩
  · rw [h, string_isxml_of_buffer cfg self o data w2 hb]
  · rcases string_isxml_cases cfg self args w2 with ⟨o, data, rfl, hb, _⟩ | ⟨_, h2⟩
    · rw [hno o rfl] at hb
      cases hb
    · rw [h, h2]

theorem string_isxml_bytes (cfg : Platform) (self : PyObject) (data : List Byte) (w : World) :
    string_isxml cfg self [PyObject.bytes data] w
      = ⟨Except.ok (PyObject.bool (decide (data.head? = some LT))), w, expected_trace data⟩ :=
  string_isxml_of_buffer cfg self (PyObject.bytes data) data w rfl

theorem string_isxml_str (cfg : Platform) (self : PyObject) (text : String) (w : World) :
    string_isxml cfg self [PyObject.str text] w = ⟨Except.error Fault.TypeMismatch, w, []⟩ :=
  string_isxml_of_no_buffer cfg self (PyObject.str text) w rfl

theorem string_isxml_cfg_indep (cfg1 cfg2 : Platform) (self : PyObject)
    (args : List PyObject) (w : World) :
    string_isxml cfg1 self args w = string_isxml cfg2 self args w := by
  rcases string_isxml_cases cfg1 self args w with ⟨o, data, rfl, hb, h⟩ | ⟨hno, h⟩
  · rw [h, string_isxml_of_buffer cfg2 self o data w hb]
  · rcases string_isxml_cases cfg2 self args w with ⟨o, data, rfl, hb, _⟩ | ⟨_, h2⟩
    · rw [hno o rfl] at hb
      cases hb
    · rw [h, h2]

theorem call_repeatedly_eq (cfg : Platform) (self : PyObject) (args : List PyObject)
    (n : Nat) (w : World) :
    call_repeatedly cfg self args n w
      = (List.replicate n (string_isxml cfg self args w).result, w) := by
  induction n with
  | zero => rfl
  | succ k ih =>
    simp only [call_repeatedly, string_isxml_world, ih, List.replicate_succ]

/-! ## Claims -/

/-- C1. For every byte sequence `data`, `isxml(data)` returns `True` exactly
when `data` is non-empty and its first byte is `0x3C`, and returns `False` for
every other byte sequence; in particular it is `True` on
`b"<?xml version=\"1.0\"?>"` and `b"<root/>"` and `False` on `b"not xml"`. -/
theorem isxml_true_iff_first_byte_lt (cfg : Platform) (self : PyObject) (data : List Byte)
    (w : World) :
    ((string_isxml cfg self [PyObject.bytes data] w).result = Except.ok Py_True
        ↔ (0 < data.length ∧ data[0]? = some LT))
    ∧ ((string_isxml cfg self [PyObject.bytes data] w).result = Except.ok Py_False
        ↔ ¬ (0 < data.length ∧ data[0]? = some LT))
    ∧ (string_isxml cfg self [PyObject.bytes (ascii "<?xml version=\"1.0\"?>")] w).result
        = Except.ok Py_True
    ∧ (string_isxml cfg self [PyObject.bytes (ascii "<root/>")] w).result = Except.ok Py_True
    ∧ (string_isxml cfg self [PyObject.bytes (ascii "not xml")] w).result
        = Except.ok Py_False := by
  refine ⟨?_, ?_, ?_, ?_, ?_⟩
  · rw [string_isxml_bytes cfg self data w]
    cases data with
    | nil => simp [Py_True]
    | cons b t => simp [Py_True]
  · rw [string_isxml_bytes cfg self data w]
    cases data with
    | nil => simp [Py_False]
    | cons b t => simp [Py_False]
  · rw [string_isxml_bytes cfg self _ w]
    rfl
  · rw [string_isxml_bytes cfg self _ w]
    rfl
  · rw [string_isxml_bytes cfg self _ w]
    rfl

/-- C2. On the empty byte sequence `isxml` returns `False` and performs no
read (only the acquire and the release of the view). The read of byte 0 is
guarded by the length test: it happens exactly when the data has length
greater than 0, so no call, on any arguments, ends in the out-of-range branch,
although an unguarded read of an empty view would. -/
theorem isxml_empty_false_no_read (cfg : Platform) (self : PyObject) (args : List PyObject)
    (data : List Byte) (w : World) :
    (string_isxml cfg self [PyObject.bytes []] w).result = Except.ok Py_False
    ∧ (string_isxml cfg self [PyObject.bytes []] w).trace = [Event.acquire, Event.release]
    ∧ (∀ i, Event.read i ∉ (string_isxml cfg self [PyObject.bytes []] w).trace)
    ∧ (Event.read 0 ∈ (string_isxml cfg self [PyObject.bytes data] w).trace
        ↔ 0 < data.length)
    ∧ (string_isxml cfg self args w).result ≠ Except.error Fault.OutOfBounds
    ∧ (char_at cfg ⟨[], 0⟩ 0 w).result = Except.error Fault.OutOfBounds := by
  refine ⟨?_, ?_, ?_, ?_, ?_, ?_⟩
  · rw [string_isxml_bytes cfg self [] w]
    rfl
  · rw [string_isxml_bytes cfg self [] w]
    rfl
  · intro i
    rw [string_isxml_bytes cfg self [] w]
    simp [expected_trace]
  · rw [string_isxml_bytes cfg self data w]
    cases data with
    | nil => simp [expected_trace]
    | cons b t => simp [expected_trace]
  · rcases string_isxml_cases cfg self args w with ⟨_, _, _, _, h⟩ | ⟨_, h⟩ <;> rw [h] <;> simp
  · rfl

/-- C3. Only byte 0 is checked: two byte sequences that start with the same
byte `x` get the same outcome whatever follows, and the only read is of index
0. Leading whitespace and byte-order marks are not skipped: a space followed
by `<` and anything else gives `False`, as on `b" <leading-space>"`, and so
does a UTF-8 byte-order mark followed by `<`. -/
theorem isxml_depends_only_on_first_byte (cfg : Platform) (self : PyObject) (x : Byte)
    (s t : List Byte) (w : World) :
    (string_isxml cfg self [PyObject.bytes (x :: s)] w).result
        = (string_isxml cfg self [PyObject.bytes (x :: t)] w).result
    ∧ (string_isxml cfg self [PyObject.bytes (x :: s)] w).trace
        = [Event.acquire, Event.read 0, Event.release]
    ∧ (string_isxml cfg self [PyObject.bytes (0x20 :: LT :: t)] w).result = Except.ok Py_False
    ∧ (string_isxml cfg self [PyObject.bytes (0xEF :: 0xBB :: 0xBF :: LT :: t)] w).result
        = Except.ok Py_False
    ∧ (string_isxml cfg self [PyObject.bytes (ascii " <leading-space>")] w).result
        = Except.ok Py_False := by
  refine ⟨?_, ?_, ?_, ?_, ?_⟩
  · rw [string_isxml_bytes cfg self (x :: s) w,
      string_isxml_bytes cfg self (x :: t) w]
    simp
  · rw [string_isxml_bytes cfg self (x :: s) w]
    rfl
  · rw [string_isxml_bytes cfg self _ w]
    rfl
  · rw [string_isxml_bytes cfg self _ w]
    rfl
  · rw [string_isxml_bytes cfg self _ w]
    rfl

/-- C4. A character string handed to `isxml` is rejected with the
type-mismatch error: the call yields no boolean, acquires no view and reads no
byte, whatever the text, including `"<not-bytes>"` whose first character is
`<`. -/
theorem isxml_str_type_mismatch (cfg : Platform) (self : PyObject) (text : String)
    (w : World) :
    string_isxml cfg self [PyObject.str text] w = ⟨Except.error Fault.TypeMismatch, w, []⟩
    ∧ (∀ b, (string_isxml cfg self [PyObject.str text] w).result
        ≠ Except.ok (PyObject.bool b))
    ∧ (isxml cfg (PyObject.str "<not-bytes>") w).result = Except.error Fault.TypeMismatch := by
  refine ⟨string_isxml_str cfg self text w, ?_, ?_⟩
  · intro b
    rw [string_isxml_str cfg self text w]
    simp
  · unfold isxml
    rw [string_isxml_str cfg _ _ w]

/-- C5. The type mismatch is the only error and is raised only for input that
is not bytes-like: a call with one argument raises exactly when the argument
exposes no buffer; every byte sequence, of any length and content, gets a
boolean; and no call, on any argument list, ends in another fault. -/
theorem isxml_raises_iff_not_bytes (cfg : Platform) (self arg : PyObject)
    (args : List PyObject) (data : List Byte) (w : World) :
    ((∃ e, (string_isxml cfg self [arg] w).result = Except.error e)
        ↔ arg.buffer = Option.none)
    ∧ ((string_isxml cfg self [arg] w).result = Except.error Fault.TypeMismatch
        ↔ arg.buffer = Option.none)
    ∧ (∃ b, (string_isxml cfg self [PyObject.bytes data] w).result
        = Except.ok (PyObject.bool b))
    ∧ ((∃ b, (string_isxml cfg self args w).result = Except.ok (PyObject.bool b))
        ∨ (string_isxml cfg self args w).result = Except.error Fault.TypeMismatch) := by
  refine ⟨?_, ?_, ?_, ?_⟩
  · cases hbuf : arg.buffer with
    | none =>
      rw [string_isxml_of_no_buffer cfg self arg w hbuf]
      simp
    | some d =>
      rw [string_isxml_of_buffer cfg self arg d w hbuf]
      simp
  · cases hbuf : arg.buffer with
    | none =>
      rw [string_isxml_of_no_buffer cfg self arg w hbuf]
      simp
    | some d =>
      rw [string_isxml_of_buffer cfg self arg d w hbuf]
      simp
  · rw [string_isxml_bytes cfg self data w]
    exact ⟨_, rfl⟩
  · rcases string_isxml_cases cfg self args w with ⟨_, _, _, _, h⟩ | ⟨_, h⟩
    · left
      rw [h]
      exact ⟨_, rfl⟩
    · right
      rw [h]

/-- C6. The documented promise fails on the code: byte sequences that open as
the encoding-guessing heuristic describes, a UTF-8 byte-order mark followed by
`<`, the UTF-16 forms `FE FF 00 3C` and `FF FE 3C 00`, the mark-less UTF-16BE
form `00 3C 00 3F`, all get `False`, whatever follows them. -/
theorem isxml_false_on_guessing_patterns (cfg : Platform) (self : PyObject)
    (t : List Byte) (w : World) :
    (string_isxml cfg self [PyObject.bytes (0xEF :: 0xBB :: 0xBF :: 0x3C :: t)] w).result
        = Except.ok Py_False
    ∧ (string_isxml cfg self [PyObject.bytes (0xFE :: 0xFF :: 0x00 :: 0x3C :: t)] w).result
        = Except.ok Py_False
    ∧ (string_isxml cfg self [PyObject.bytes (0xFF :: 0xFE :: 0x3C :: 0x00 :: t)] w).result
        = Except.ok Py_False
    ∧ (string_isxml cfg self [PyObject.bytes (0x00 :: 0x3C :: 0x00 :: 0x3F :: t)] w).result
        = Except.ok Py_False
    ∧ (isxml cfg (PyObject.bytes (0xEF :: 0xBB :: 0xBF :: ascii "<a/>")) world0).result
        = Except.ok Py_False := by
  refine ⟨?_, ?_, ?_, ?_, ?_⟩
  · rw [string_isxml_bytes cfg self _ w]
    rfl
  · rw [string_isxml_bytes cfg self _ w]
    rfl
  · rw [string_isxml_bytes cfg self _ w]
    rfl
  · rw [string_isxml_bytes cfg self _ w]
    rfl
  · unfold isxml
    rw [string_isxml_bytes cfg _ _ world0]
    rfl

/-- C7. `isxml` is deterministic and keeps no hidden state: on the same
arguments the result is the same from any two worlds, a call hands back the
world it was given, and any number of calls in a row on the same arguments
return the same result each time and leave the world as it was. -/
theorem isxml_deterministic_no_state (cfg : Platform) (self : PyObject)
    (args : List PyObject) (w1 w2 : World) (n : Nat) :
    (string_isxml cfg self args w1).result = (string_isxml cfg self args w2).result
    ∧ (string_isxml cfg self args w1).trace = (string_isxml cfg self args w2).trace
    ∧ (string_isxml cfg self args w1).world = w1
    ∧ call_repeatedly cfg self args n w1
        = (List.replicate n (string_isxml cfg self args w2).result, w1) := by
  refine ⟨string_isxml_result_indep cfg self args w1 w2, ?_,
    string_isxml_world cfg self args w1, ?_⟩
  · rcases string_isxml_cases cfg self args w1 with ⟨o, data, rfl, hb, h⟩ | ⟨hno, h⟩
    · rw [h, string_isxml_of_buffer cfg self o data w2 hb]
    · rcases string_isxml_cases cfg self args w2 with ⟨o, data, rfl, hb, _⟩ | ⟨_, h2⟩
      · rw [hno o rfl] at hb
        cases hb
      · rw [h, h2]
  · rw [call_repeatedly_eq, string_isxml_result_indep cfg self args w1 w2]

/-- C8. Acquire and release balance: every call leaves the number of
outstanding views as it found it. A call whose arguments parse acquires the
view first, releases it last and exactly once, with only reads of byte 0 in
between; this holds on the branch returning `True`, on the branch returning
`False` and on empty data. A call whose arguments are rejected acquires and
releases nothing. -/
theorem isxml_buffer_balance (cfg : Platform) (self : PyObject) (args : List PyObject)
    (x : Byte) (t : List Byte) (w : World) :
    (string_isxml cfg self args w).world.exports = w.exports
    ∧ ((∃ v reads, (string_isxml cfg self args w).result = Except.ok v
          ∧ (string_isxml cfg self args w).trace = Event.acquire :: (reads ++ [Event.release])
          ∧ (∀ e ∈ reads, e = Event.read 0)
          ∧ (string_isxml cfg self args w).trace.count Event.acquire = 1
          ∧ (string_isxml cfg self args w).trace.count Event.release = 1)
        ∨ ((string_isxml cfg self args w).result = Except.error Fault.TypeMismatch
          ∧ (string_isxml cfg self args w).trace = []))
    ∧ string_isxml cfg self [PyObject.bytes (LT :: t)] w
        = ⟨Except.ok Py_True, w, [Event.acquire, Event.read 0, Event.release]⟩
    ∧ string_isxml cfg self [PyObject.bytes (0x20 :: t)] w
        = ⟨Except.ok Py_False, w, [Event.acquire, Event.read 0, Event.release]⟩
    ∧ string_isxml cfg self [PyObject.bytes []] w
        = ⟨Except.ok Py_False, w, [Event.acquire, Event.release]⟩
    ∧ (string_isxml cfg self [PyObject.bytes (x :: t)] w).trace
        = [Event.acquire, Event.read 0, Event.release]
    ∧ string_isxml cfg self [PyObject.str "<a/>"] w
        = ⟨Except.error Fault.TypeMismatch, w, []⟩ := by
  refine ⟨?_, ?_, ?_, ?_, ?_, ?_, ?_⟩
  · rw [string_isxml_world]
  · rcases string_isxml_cases cfg self args w with ⟨o, data, _, _, h⟩ | ⟨_, h⟩
    · left
      rw [h]
      cases data with
      | nil => exact ⟨_, [], rfl, rfl, by simp, rfl, rfl⟩
      | cons b r => exact ⟨_, [Event.read 0], rfl, rfl, by simp, rfl, rfl⟩
    · right
      rw [h]
      exact ⟨rfl, rfl⟩
  · rw [string_isxml_bytes cfg self _ w]
    rfl
  · rw [string_isxml_bytes cfg self _ w]
    rfl
  · rw [string_isxml_bytes cfg self _ w]
    rfl
  · rw [string_isxml_bytes cfg self _ w]
    rfl
  · exact string_isxml_str cfg self _ w

/-- C9. The comparison of byte 0 with `<` does not depend on the signedness
of `char`: for every byte `v`, its value read as a signed `char` equals the
character constant (60) exactly when its value read as an unsigned `char`
does, exactly when `v = 0x3C`. So the signed and the unsigned embedding of
`isxml` agree on every call, and data whose first byte is `0x80` or above get
`False`. -/
theorem isxml_char_signedness_irrelevant (cfg : Platform) (self : PyObject)
    (args : List PyObject) (v : Byte) (t : List Byte) (w : World) :
    char_const '<' = 60
    ∧ char_value ⟨true⟩ v = (if 128 ≤ v.val then (v.val : Int) - 256 else (v.val : Int))
    ∧ char_value ⟨false⟩ v = (v.val : Int)
    ∧ (char_value ⟨true⟩ v = char_const '<' ↔ char_value ⟨false⟩ v = char_const '<')
    ∧ (char_value ⟨true⟩ v = char_const '<' ↔ v = LT)
    ∧ (char_value ⟨false⟩ v = char_const '<' ↔ v = LT)
    ∧ string_isxml ⟨true⟩ self args w = string_isxml ⟨false⟩ self args w
    ∧ (128 ≤ v.val →
        (string_isxml cfg self [PyObject.bytes (v :: t)] w).result = Except.ok Py_False) := by
  rw [char_const_lt]
  refine ⟨rfl, ?_, ?_, ?_, char_value_eq_sixty _ v, char_value_eq_sixty _ v,
    string_isxml_cfg_indep _ _ self args w, ?_⟩
  · simp [char_value]
  · simp [char_value]
  · rw [char_value_eq_sixty, char_value_eq_sixty]
  · intro hv
    rw [string_isxml_bytes cfg self _ w]
    have hne : v ≠ LT := by
      intro h
      rw [h] at hv
      revert hv
      decide
    simp [Py_False, hne]

/-- C9 at a concrete input: the byte `0xBC`, whose signed reading is `-68`. -/
theorem isxml_char_signedness_irrelevant_witness :
    (char_value ⟨true⟩ 0xBC = char_const '<' ↔ char_value ⟨false⟩ 0xBC = char_const '<')
    ∧ (string_isxml ⟨true⟩ PyObject.none [PyObject.bytes [0xBC, 0x3C]] world0).result
        = Except.ok Py_False :=
  ⟨(isxml_char_signedness_irrelevant ⟨true⟩ PyObject.none [] 0xBC [0x3C] world0).2.2.2.1,
    (isxml_char_signedness_irrelevant ⟨true⟩ PyObject.none [] 0xBC [0x3C] world0).2.2.2.2.2.2.2
      (by decide)⟩

end Amara.XmlString
